import Mathlib

/-!
Shallow embedding of the Roth-conversion projection engine
(`src/app/lib/taxEngine.ts`, `src/app/lib/simulation.ts`, `src/app/lib/rmd.ts`,
`src/app/lib/monteCarlo.ts` of the `rothconversion` repository), together with
theorems checking the specified behaviour of the tax, RMD, simulation and
Monte-Carlo components.

Numbers are embedded as exact rationals (the source uses JS floating point,
but every constant in the repository is a decimal literal and every property
checked here concerns exact decimal arithmetic); the Monte-Carlo sampler uses
real numbers because it involves exp/log/sqrt/cos.  JS `x || y` fallbacks
(falsy on `undefined` and `0`) are embedded by `jsOr`; optional fields are
`Option`; ages are integers (the table keys and all simulated ages are whole
years); TS default arguments are made explicit at each call site exactly as
TS resolves them (`calcMarginalTaxRate`/`calcTotalTax` default to `'single'`,
`getOptimalConversionAmount` defaults to `'mfj'`).  JS for-loops with early
return / accumulator mutation are embedded as structural recursion / folds.
-/

/-- Filing status, `'single' | 'mfj'` in the source. -/
inductive FilingStatus
  | single
  | mfj
deriving DecidableEq

/-- `TaxBracket` from `src/app/types/index.ts`: `cap` is `number | null`. -/
structure TaxBracket where
  rate : ℚ
  cap : Option ℚ
  label : String
deriving DecidableEq

/-- `MFJ_BRACKETS` from `taxEngine.ts`. -/
def MFJ_BRACKETS : List TaxBracket :=
  [ { rate := 0.10, cap := some 22000, label := "10%" },
    { rate := 0.12, cap := some 89450, label := "12%" },
    { rate := 0.22, cap := some 190750, label := "22%" },
    { rate := 0.24, cap := some 364200, label := "24%" },
    { rate := 0.32, cap := some 462500, label := "32%" },
    { rate := 0.35, cap := some 693750, label := "35%" },
    { rate := 0.37, cap := none, label := "37%" } ]

/-- `SINGLE_BRACKETS` from `taxEngine.ts`. -/
def SINGLE_BRACKETS : List TaxBracket :=
  [ { rate := 0.10, cap := some 11000, label := "10%" },
    { rate := 0.12, cap := some 44725, label := "12%" },
    { rate := 0.22, cap := some 95375, label := "22%" },
    { rate := 0.24, cap := some 182100, label := "24%" },
    { rate := 0.32, cap := some 231250, label := "32%" },
    { rate := 0.35, cap := some 346875, label := "35%" },
    { rate := 0.37, cap := none, label := "37%" } ]

/-- `getBrackets` from `taxEngine.ts`. -/
def getBrackets (filingStatus : FilingStatus) : List TaxBracket :=
  match filingStatus with
  | FilingStatus.single => SINGLE_BRACKETS
  | FilingStatus.mfj => MFJ_BRACKETS

/-- `STANDARD_DEDUCTIONS` / `getStandardDeduction` from `taxEngine.ts`. -/
def getStandardDeduction (filingStatus : FilingStatus) : ℚ :=
  match filingStatus with
  | FilingStatus.single => 14600
  | FilingStatus.mfj => 29200

/-- The loop body of `calcMarginalTax` (`taxEngine.ts`): iterates over the
brackets, accumulating `cap * rate` and subtracting the cap from the running
`remaining` until `remaining` fits under the current cap (or the cap is
`null`), where it adds `remaining * rate` and stops.  An exhausted list
returns the accumulated tax (the loop falls through). -/
def calcMarginalTaxGo (remaining : ℚ) : List TaxBracket → ℚ
  | [] => 0
  | b :: bs =>
    match b.cap with
    | none => remaining * b.rate
    | some c =>
      if remaining ≤ c then remaining * b.rate
      else c * b.rate + calcMarginalTaxGo (remaining - c) bs

/-- `calcMarginalTax` from `taxEngine.ts` (identical in both copies of the
tax library present in the repository). -/
def calcMarginalTax (income : ℚ) (brackets : List TaxBracket) : ℚ :=
  calcMarginalTaxGo income brackets

/-- The bracket-scanning loop shared by both versions of
`calcMarginalTaxRate`: returns the rate of the first bracket whose cap is
`null` or at least the taxable income. -/
def findBracketRate (taxableIncome : ℚ) : List TaxBracket → Option ℚ
  | [] => none
  | b :: bs =>
    match b.cap with
    | none => some b.rate
    | some c =>
      if taxableIncome ≤ c then some b.rate else findBracketRate taxableIncome bs

/-- The `brackets[brackets.length - 1].rate` fallback reached when the loop
of `calcMarginalTaxRate` exhausts the list (on an empty list the source
would throw; embedded as 0, unreachable for the repository's tables). -/
def lastRate (brackets : List TaxBracket) : ℚ :=
  ((brackets.getLast?).map TaxBracket.rate).getD 0

/-- `calcMarginalTaxRate` from `taxEngine.ts`: subtracts the filing status's
standard deduction (floored at 0) before scanning the brackets.  The TS
default argument `filingStatus = 'single'` is made explicit at call sites. -/
def calcMarginalTaxRate (income : ℚ) (brackets : List TaxBracket)
    (filingStatus : FilingStatus) : ℚ :=
  (findBracketRate (max 0 (income - getStandardDeduction filingStatus)) brackets).getD
    (lastRate brackets)

/-- `calcMarginalTaxRate` from the deduction-less copy of the tax library
(the second tax-calculation file in the repository): no standard deduction
is applied. -/
def calcMarginalTaxRateV1 (income : ℚ) (brackets : List TaxBracket) : ℚ :=
  (findBracketRate income brackets).getD (lastRate brackets)

/-- `calcTotalTax` from `taxEngine.ts`: federal tax on
`max(0, income - standardDeduction)` plus `income * stateTaxRate` on gross
income.  TS defaults (`stateTaxRate = 0`, `filingStatus = 'single'`) are
made explicit at call sites. -/
def calcTotalTax (income : ℚ) (brackets : List TaxBracket) (stateTaxRate : ℚ)
    (filingStatus : FilingStatus) : ℚ :=
  calcMarginalTax (max 0 (income - getStandardDeduction filingStatus)) brackets
    + income * stateTaxRate

/-- JS truthiness of the `bracket.cap` test in `getOptimalConversionAmount`:
`null` and `0` are falsy. -/
def capTruthy : Option ℚ → Bool
  | none => false
  | some c => if c = 0 then false else true

/-- The first loop of `getOptimalConversionAmount`'s at-or-below-target
branch: the first bracket with `rate === targetBracket` and a truthy cap
(the loop returns on the first hit). -/
def findTargetBracket (target : ℚ) : List TaxBracket → Option TaxBracket
  | [] => none
  | b :: bs =>
    if b.rate = target ∧ capTruthy b.cap = true then some b
    else findTargetBracket target bs

/-- The accumulation loop of `getOptimalConversionAmount`'s above-target
branch: folds over the brackets carrying `(conversionAmount, testIncome)`;
each bracket at or below the target rate with a truthy cap contributes the
positive part of `cap + sd - testIncome` and advances `testIncome` to
`cap + sd`.  The deduction-less copy of the library runs this same loop
with `sd = 0`. -/
def fillRooms (brackets : List TaxBracket) (target sd income : ℚ) : ℚ × ℚ :=
  brackets.foldl
    (fun acc b =>
      if b.rate ≤ target ∧ capTruthy b.cap = true then
        if 0 < b.cap.getD 0 + sd - acc.2 then
          (acc.1 + (b.cap.getD 0 + sd - acc.2), b.cap.getD 0 + sd)
        else acc
      else acc)
    (0, income)

/-- `getOptimalConversionAmount` from `taxEngine.ts`.  The TS default
argument `filingStatus = 'mfj'` is made explicit at call sites.  When the
current marginal rate is at or below the target, the first bracket whose
rate equals the target and whose cap is truthy gives
`min(cap + standardDeduction - currentIncome, traditionalBalance)`
(`b.cap.getD 0` extracts the cap, which the truthy test guarantees is
present and nonzero); with no such bracket the fallback is
`min(traditionalBalance * 0.1, 50000)`; above the target the accumulated
room is capped by the balance. -/
def getOptimalConversionAmount (currentIncome traditionalBalance : ℚ)
    (brackets : List TaxBracket) (targetBracket : ℚ)
    (filingStatus : FilingStatus) : ℚ :=
  let standardDeduction := getStandardDeduction filingStatus
  let currentBracket := calcMarginalTaxRate currentIncome brackets filingStatus
  if currentBracket ≤ targetBracket then
    match findTargetBracket targetBracket brackets with
    | some b => min (b.cap.getD 0 + standardDeduction - currentIncome) traditionalBalance
    | none => min (traditionalBalance * (1/10)) 50000
  else
    min (fillRooms brackets targetBracket standardDeduction currentIncome).1
      traditionalBalance

/-- `getOptimalConversionAmount` from the deduction-less copy of the tax
library: no standard deduction anywhere (its room loop is `fillRooms` with
`sd = 0`). -/
def getOptimalConversionAmountV1 (currentIncome traditionalBalance : ℚ)
    (brackets : List TaxBracket) (targetBracket : ℚ) : ℚ :=
  let currentBracket := calcMarginalTaxRateV1 currentIncome brackets
  if currentBracket ≤ targetBracket then
    match findTargetBracket targetBracket brackets with
    | some b => min (b.cap.getD 0 - currentIncome) traditionalBalance
    | none => min (traditionalBalance * (1/10)) 50000
  else
    min (fillRooms brackets targetBracket 0 currentIncome).1 traditionalBalance

/-- JS `x || y` on an optional numeric slot: `undefined` and `0` fall
back to the default. -/
def jsOr (o : Option ℚ) (fallback : ℚ) : ℚ :=
  match o with
  | none => fallback
  | some v => if v = 0 then fallback else v

/-- `UNIFORM_LIFETIME_TABLE` from `rmd.ts` (IRS uniform lifetime table,
ages 72 to 120). -/
def UNIFORM_LIFETIME_TABLE : List (ℤ × ℚ) :=
  [ (72, 27.4), (73, 26.5), (74, 25.5), (75, 24.6), (76, 23.7), (77, 22.9),
    (78, 22.0), (79, 21.1), (80, 20.2), (81, 19.4), (82, 18.5), (83, 17.7),
    (84, 16.8), (85, 16.0), (86, 15.2), (87, 14.4), (88, 13.7), (89, 12.9),
    (90, 12.2), (91, 11.5), (92, 10.8), (93, 10.1), (94, 9.5), (95, 8.9),
    (96, 8.4), (97, 7.8), (98, 7.3), (99, 6.8), (100, 6.4), (101, 6.0),
    (102, 5.6), (103, 5.2), (104, 4.9), (105, 4.6), (106, 4.3), (107, 4.1),
    (108, 3.9), (109, 3.7), (110, 3.5), (111, 3.4), (112, 3.3), (113, 3.1),
    (114, 3.0), (115, 2.9), (116, 2.8), (117, 2.7), (118, 2.5), (119, 2.3),
    (120, 2.0) ]

/-- Lookup in the age-keyed record: the JS object access `TABLE[age]`. -/
def tableLookup (age : ℤ) : List (ℤ × ℚ) → Option ℚ
  | [] => none
  | p :: ps => if age = p.1 then some p.2 else tableLookup age ps

/-- `getRmdFactor` from `rmd.ts`: `UNIFORM_LIFETIME_TABLE[age] || 1.0`
(object lookup with the JS `||` fallback). -/
def getRmdFactor (age : ℤ) : ℚ :=
  jsOr (tableLookup age UNIFORM_LIFETIME_TABLE) 1

/-- `getRmd` from `rmd.ts`. -/
def getRmd (balance : ℚ) (age : ℤ) : ℚ :=
  balance / getRmdFactor age

/-- Conversion strategy selector from `src/app/types/index.ts`. -/
inductive ConversionStrategy
  | oneTime
  | annual
  | bracketOptimization
deriving DecidableEq

/-- The fields of `UserInputs` (`src/app/types/index.ts`) that
`runSimulation` reads.  `expectedReturn` and `taxableYield` may arrive as
strings from the form; `runSimulation` coerces them with `parseFloat`
before use, so they are embedded by their parsed numeric value (or `none`
when absent). -/
structure UserInputs where
  age1 : ℤ
  age2 : ℤ
  filingStatus : FilingStatus
  retirementAge : ℤ
  traditionalBalance : ℚ
  rothBalance : ℚ
  taxableBalance : Option ℚ
  annualIncome : ℚ
  yearlyIncomes : List ℚ
  retirementIncome : ℚ
  conversionStrategy : ConversionStrategy
  annualConversion : ℚ
  conversionPercentage : ℚ
  targetTaxBracket : ℚ
  expectedReturn : Option ℚ
  taxableYield : Option ℚ
  simulationYears : ℕ
  stateTaxRate : ℚ
  enableStateTax : Bool

/-- `SimulationResult` from `src/app/types/index.ts` (one record pushed per
simulated year by `runSimulation`). -/
structure YearResult where
  year : ℕ
  age1 : ℤ
  age2 : ℤ
  traditionalBalance : ℚ
  rothBalance : ℚ
  taxableBalance : Option ℚ
  conversionAmount : ℚ
  conversionTax : ℚ
  marginalTaxRate : ℚ
  rmdAmount : ℚ
  rmdTax : ℚ
  cumulativeTaxPaid : ℚ
  totalAfterTaxWealth : ℚ
  noConversionWealth : ℚ
  conversionWealth : ℚ
  breakEven : Bool
  isRetired : Bool
  annualIncome : ℚ

/-- The mutable locals of `runSimulation` carried across years. -/
structure SimState where
  traditionalBalance : ℚ
  rothBalance : ℚ
  taxableBalance : ℚ
  cumulativeTaxPaid : ℚ
  noConversionTraditional : ℚ
  noConversionRoth : ℚ
  noConversionTaxable : ℚ
  oneTimeConversionDone : Bool

/-- The income-selection block of `runSimulation`: years 1-10 use
`yearlyIncomes[year - 1] || annualIncome`; later years use
`retirementIncome` when retired and `yearlyIncomes[9] || annualIncome`
otherwise. -/
def incomeForYear (inputs : UserInputs) (year : ℕ) : ℚ :=
  if year ≤ 10 then jsOr (inputs.yearlyIncomes[year - 1]?) inputs.annualIncome
  else if inputs.retirementAge ≤ inputs.age1 + (year : ℤ) - 1 then
    inputs.retirementIncome
  else jsOr (inputs.yearlyIncomes[9]?) inputs.annualIncome

/-- The strategy dispatch of `runSimulation` computing this year's
conversion amount.  `one-time` converts `min(annualConversion, balance)`
only when it has not fired yet; `annual` converts
`min(annualConversion, balance * conversionPercentage / 100)`;
`bracket-optimization` calls `getOptimalConversionAmount` (with its TS
default filing status `'mfj'`) only while not retired. -/
def conversionAmountOf (inputs : UserInputs) (year : ℕ) (s : SimState) : ℚ :=
  match inputs.conversionStrategy with
  | ConversionStrategy.oneTime =>
      if s.oneTimeConversionDone = true then 0
      else min inputs.annualConversion s.traditionalBalance
  | ConversionStrategy.annual =>
      min inputs.annualConversion
        (s.traditionalBalance * (inputs.conversionPercentage / 100))
  | ConversionStrategy.bracketOptimization =>
      if inputs.retirementAge ≤ inputs.age1 + (year : ℤ) - 1 then 0
      else
        getOptimalConversionAmount (incomeForYear inputs year)
          s.traditionalBalance (getBrackets inputs.filingStatus)
          inputs.targetTaxBracket FilingStatus.mfj

/-- The RMD guard of `runSimulation`:
`isRetired && age1 >= 72 ? getRmd(balance, age1) : 0`. -/
def rmdAmountOf (inputs : UserInputs) (year : ℕ) (balance : ℚ) : ℚ :=
  if inputs.retirementAge ≤ inputs.age1 + (year : ℤ) - 1
      ∧ (72 : ℤ) ≤ inputs.age1 + (year : ℤ) - 1 then
    getRmd balance (inputs.age1 + (year : ℤ) - 1)
  else 0

/-- The conversion application block of `runSimulation`: move the amount
from traditional to Roth and debit the conversion tax from the taxable
account when one is tracked.  Returns
(traditional, roth, taxable) after the step. -/
def applyConversion (traditional roth taxable amount tax : ℚ)
    (tracked : Bool) : ℚ × ℚ × ℚ :=
  (traditional - amount, roth + amount,
   if tracked = true then taxable - tax else taxable)

/-- The growth block of `runSimulation`: balances grow by `expectedReturn`
only when it is present and strictly positive; the taxable balance
additionally requires a present, strictly positive `taxableYield` and a
tracked taxable account (the yield test is nested inside the return
test, as in the source). -/
def applyGrowth (inputs : UserInputs) (traditional roth taxable : ℚ) :
    ℚ × ℚ × ℚ :=
  match inputs.expectedReturn with
  | none => (traditional, roth, taxable)
  | some r =>
    if 0 < r then
      (traditional * (1 + r), roth * (1 + r),
       match inputs.taxableYield with
       | none => taxable
       | some yld =>
         if 0 < yld ∧ inputs.taxableBalance.isSome = true then
           taxable * (1 + yld)
         else taxable)
    else (traditional, roth, taxable)

/-- One iteration of the year loop of `runSimulation`: income selection,
strategy dispatch, conversion tax (on the conversion amount alone, with the
TS-default `'single'` filing status), conversion transfer, RMD and its tax,
growth, the parallel no-conversion shadow track, wealth totals, break-even
flag, and the emitted `SimulationResult`. -/
def stepYear (inputs : UserInputs) (year : ℕ) (s : SimState) :
    SimState × YearResult :=
  let age1 : ℤ := inputs.age1 + (year : ℤ) - 1
  let age2 : ℤ := inputs.age2 + (year : ℤ) - 1
  let retired : Bool := decide (inputs.retirementAge ≤ age1)
  let currentYearIncome : ℚ := incomeForYear inputs year
  let brackets := getBrackets inputs.filingStatus
  let tracked : Bool := inputs.taxableBalance.isSome
  let conversionAmount : ℚ := conversionAmountOf inputs year s
  let oneTimeDone : Bool :=
    match inputs.conversionStrategy with
    | ConversionStrategy.oneTime => true
    | _ => s.oneTimeConversionDone
  let stateRate : ℚ := if inputs.enableStateTax = true then inputs.stateTaxRate else 0
  let marginalTaxRate : ℚ :=
    calcMarginalTaxRate (currentYearIncome + conversionAmount) brackets
      FilingStatus.single
  let conversionTax : ℚ :=
    calcTotalTax conversionAmount brackets stateRate FilingStatus.single
  let afterConv :=
    applyConversion s.traditionalBalance s.rothBalance s.taxableBalance
      conversionAmount conversionTax tracked
  let rmdAmount : ℚ := rmdAmountOf inputs year afterConv.1
  let rmdTax : ℚ :=
    if 0 < rmdAmount then
      calcTotalTax rmdAmount brackets stateRate FilingStatus.single
    else 0
  let trad2 : ℚ := afterConv.1 - rmdAmount
  let taxable2 : ℚ :=
    if tracked = true then afterConv.2.2 - rmdTax else afterConv.2.2
  let grown := applyGrowth inputs trad2 afterConv.2.1 taxable2
  let ncRmdAmount : ℚ := rmdAmountOf inputs year s.noConversionTraditional
  let ncRmdTax : ℚ :=
    if 0 < ncRmdAmount then
      calcTotalTax ncRmdAmount brackets stateRate FilingStatus.single
    else 0
  let ncTrad1 : ℚ := s.noConversionTraditional - ncRmdAmount
  let ncTaxable1 : ℚ :=
    if tracked = true then s.noConversionTaxable - ncRmdTax
    else s.noConversionTaxable
  let ncGrown := applyGrowth inputs ncTrad1 s.noConversionRoth ncTaxable1
  let totalAfterTaxWealth : ℚ := grown.1 + grown.2.1 + max 0 grown.2.2
  let noConversionWealth : ℚ := ncGrown.1 + ncGrown.2.1 + max 0 ncGrown.2.2
  let breakEven : Bool := decide (noConversionWealth < totalAfterTaxWealth)
  let cumulativeTaxPaid : ℚ := s.cumulativeTaxPaid + conversionTax + rmdTax
  ({ traditionalBalance := grown.1,
     rothBalance := grown.2.1,
     taxableBalance := grown.2.2,
     cumulativeTaxPaid := cumulativeTaxPaid,
     noConversionTraditional := ncGrown.1,
     noConversionRoth := ncGrown.2.1,
     noConversionTaxable := ncGrown.2.2,
     oneTimeConversionDone := oneTimeDone },
   { year := year,
     age1 := age1,
     age2 := age2,
     traditionalBalance := grown.1,
     rothBalance := grown.2.1,
     taxableBalance := if tracked = true then some grown.2.2 else none,
     conversionAmount := conversionAmount,
     conversionTax := conversionTax,
     marginalTaxRate := marginalTaxRate,
     rmdAmount := rmdAmount,
     rmdTax := rmdTax,
     cumulativeTaxPaid := cumulativeTaxPaid,
     totalAfterTaxWealth := totalAfterTaxWealth,
     noConversionWealth := noConversionWealth,
     conversionWealth := totalAfterTaxWealth,
     breakEven := breakEven,
     isRetired := retired,
     annualIncome := currentYearIncome })

/-- The year loop of `runSimulation` over an explicit list of year
indices, emitting one `YearResult` per year and threading the state. -/
def simSteps (inputs : UserInputs) : List ℕ → SimState → List YearResult
  | [], _ => []
  | y :: ys, s => (stepYear inputs y s).2 :: simSteps inputs ys (stepYear inputs y s).1

/-- The initial values of `runSimulation`'s mutable locals
(`inputs.taxableBalance || 0` for the taxable track). -/
def initState (inputs : UserInputs) : SimState :=
  { traditionalBalance := inputs.traditionalBalance,
    rothBalance := inputs.rothBalance,
    taxableBalance := (inputs.taxableBalance).getD 0,
    cumulativeTaxPaid := 0,
    noConversionTraditional := inputs.traditionalBalance,
    noConversionRoth := inputs.rothBalance,
    noConversionTaxable := (inputs.taxableBalance).getD 0,
    oneTimeConversionDone := false }

/-- `runSimulation` from `simulation.ts`: the loop
`for (year = 1; year <= simulationYears; year++)`. -/
def runSimulation (inputs : UserInputs) : List YearResult :=
  simSteps inputs ((List.range inputs.simulationYears).map (fun k => k + 1))
    (initState inputs)

/-- Outcome record of one Monte-Carlo path
(`{ traditional, roth, total }` in `monteCarlo.ts`). -/
structure MCResult where
  traditional : ℝ
  roth : ℝ
  total : ℝ

/-- `generateLogNormalReturn` from `monteCarlo.ts`, with the two
`Math.random()` draws passed explicitly: the Box-Muller standard normal
`sqrt(-2 ln u1) * cos(2 pi u2)`, scaled by `stdDev`, offset by `mean`,
then exponentiated. -/
noncomputable def generateLogNormalReturn (mean stdDev u1 u2 : ℝ) : ℝ :=
  Real.exp (mean + stdDev * (Real.sqrt (-2 * Real.log u1) * Real.cos (2 * Real.pi * u2)))

/-- `runMonteCarloSimulation` from `monteCarlo.ts`, with the random stream
passed explicitly (`rand run year` gives the two uniform draws of that
year of that path).  Each path compounds a freshly sampled return per year,
the same sample applied to both balances, and records final balances. -/
noncomputable def runMonteCarloSimulation (initialTraditional initialRoth : ℝ)
    (years : ℕ) (expectedReturn volatility : ℝ) (runs : ℕ)
    (rand : ℕ → ℕ → ℝ × ℝ) : List MCResult :=
  (List.range runs).map (fun run =>
    let trad : ℝ :=
      (List.range years).foldl
        (fun t year =>
          t * (1 + generateLogNormalReturn expectedReturn volatility
                (rand run year).1 (rand run year).2))
        initialTraditional
    let roth : ℝ :=
      (List.range years).foldl
        (fun t year =>
          t * (1 + generateLogNormalReturn expectedReturn volatility
                (rand run year).1 (rand run year).2))
        initialRoth
    { traditional := trad, roth := roth, total := trad + roth })

/-- Reference progressive-tax formula, written from the specified contract
(not from the source, for comparison with `calcMarginalTax`): the sum over
brackets whose lower bound is below the income of
`rate * (min(income, cap) - lowerBound)`, where each bracket's lower bound
is the previous bracket's cap; the unbounded bracket taxes the excess over
its lower bound and ends the table. -/
def specRefTaxGo (income lowerBound : ℚ) : List TaxBracket → ℚ
  | [] => 0
  | b :: bs =>
    match b.cap with
    | none => if lowerBound < income then b.rate * (income - lowerBound) else 0
    | some c =>
      (if lowerBound < income then b.rate * (min income c - lowerBound) else 0)
        + specRefTaxGo income c bs

/-- Reference progressive tax over a bracket table, from lower bound 0. -/
def specReferenceProgressiveTax (income : ℚ) (brackets : List TaxBracket) : ℚ :=
  specRefTaxGo income 0 brackets

/-- Concrete input exercising a retired year inside the first simulated
decade: the first person is 70, retirement age 65, an explicit first-year
income of 50000 and a retirement income of 20000. -/
def inpC3x : UserInputs :=
  { age1 := 70, age2 := 70, filingStatus := FilingStatus.single,
    retirementAge := 65, traditionalBalance := 0, rothBalance := 0,
    taxableBalance := none, annualIncome := 0, yearlyIncomes := [50000],
    retirementIncome := 20000,
    conversionStrategy := ConversionStrategy.annual, annualConversion := 0,
    conversionPercentage := 0, targetTaxBracket := 0, expectedReturn := none,
    taxableYield := none, simulationYears := 1, stateTaxRate := 0,
    enableStateTax := false }

/-- Concrete input whose first person is 100 (retired from year 1 on), with
a distinguished retirement income. -/
def inpC3w : UserInputs :=
  { age1 := 100, age2 := 100, filingStatus := FilingStatus.single,
    retirementAge := 65, traditionalBalance := 0, rothBalance := 0,
    taxableBalance := none, annualIncome := 0, yearlyIncomes := [],
    retirementIncome := 20000,
    conversionStrategy := ConversionStrategy.annual, annualConversion := 0,
    conversionPercentage := 0, targetTaxBracket := 0, expectedReturn := none,
    taxableYield := none, simulationYears := 1, stateTaxRate := 0,
    enableStateTax := false }

/-- Concrete input using the bracket-optimization strategy while not yet
retired. -/
def inpC6 : UserInputs :=
  { age1 := 30, age2 := 30, filingStatus := FilingStatus.mfj,
    retirementAge := 65, traditionalBalance := 500000, rothBalance := 0,
    taxableBalance := none, annualIncome := 100000, yearlyIncomes := [],
    retirementIncome := 0,
    conversionStrategy := ConversionStrategy.bracketOptimization,
    annualConversion := 0, conversionPercentage := 0,
    targetTaxBracket := 22/100, expectedReturn := none, taxableYield := none,
    simulationYears := 1, stateTaxRate := 0, enableStateTax := false }

/-- Concrete input with nonnegative balances and a 50 percent annual
conversion. -/
def inpC8 : UserInputs :=
  { age1 := 40, age2 := 40, filingStatus := FilingStatus.mfj,
    retirementAge := 65, traditionalBalance := 100000, rothBalance := 0,
    taxableBalance := none, annualIncome := 50000, yearlyIncomes := [],
    retirementIncome := 0,
    conversionStrategy := ConversionStrategy.annual,
    annualConversion := 10000, conversionPercentage := 50,
    targetTaxBracket := 0, expectedReturn := none, taxableYield := none,
    simulationYears := 2, stateTaxRate := 0, enableStateTax := false }

/- ------------------------------------------------------------------ -/
/- Helper lemmas                                                      -/
/- ------------------------------------------------------------------ -/

theorem mem_of_tableLookup {l : List (ℤ × ℚ)} {a : ℤ} {v : ℚ}
    (h : tableLookup a l = some v) : (a, v) ∈ l := by
  induction l with
  | nil => simp [tableLookup] at h
  | cons p ps ih =>
    obtain ⟨k, w⟩ := p
    simp only [tableLookup] at h
    by_cases hp : a = k
    · rw [if_pos hp] at h
      injection h with hv
      rw [List.mem_cons]
      exact Or.inl (by rw [hp, ← hv])
    · rw [if_neg hp] at h
      exact List.mem_cons_of_mem _ (ih h)

theorem ult_facts :
    ∀ p ∈ UNIFORM_LIFETIME_TABLE, 72 ≤ p.1 ∧ p.1 ≤ 120 ∧ (1 : ℚ) ≤ p.2 := by
  intro p hp
  fin_cases hp <;> norm_num

theorem one_le_getRmdFactor (a : ℤ) : 1 ≤ getRmdFactor a := by
  unfold getRmdFactor
  cases h : tableLookup a UNIFORM_LIFETIME_TABLE with
  | none => simp [jsOr]
  | some v =>
    have hm := mem_of_tableLookup h
    have hv : (1 : ℚ) ≤ v := (ult_facts _ hm).2.2
    simp only [jsOr]
    split
    · norm_num
    · exact hv

theorem getRmd_nonneg (t : ℚ) (a : ℤ) (ht : 0 ≤ t) : 0 ≤ getRmd t a :=
  div_nonneg ht (le_trans zero_le_one (one_le_getRmdFactor a))

theorem getRmd_le_self (t : ℚ) (a : ℤ) (ht : 0 ≤ t) : getRmd t a ≤ t :=
  div_le_self ht (one_le_getRmdFactor a)

theorem rmdAmountOf_nonneg (inputs : UserInputs) (y : ℕ) (t : ℚ)
    (ht : 0 ≤ t) : 0 ≤ rmdAmountOf inputs y t := by
  unfold rmdAmountOf
  split
  · exact getRmd_nonneg _ _ ht
  · exact le_refl 0

theorem rmdAmountOf_le (inputs : UserInputs) (y : ℕ) (t : ℚ)
    (ht : 0 ≤ t) : rmdAmountOf inputs y t ≤ t := by
  unfold rmdAmountOf
  split
  · exact getRmd_le_self _ _ ht
  · exact ht

theorem getOptimalConversionAmount_le (i t : ℚ) (br : List TaxBracket)
    (tgt : ℚ) (fs : FilingStatus) (ht : 0 ≤ t) :
    getOptimalConversionAmount i t br tgt fs ≤ t := by
  simp only [getOptimalConversionAmount]
  split
  · split
    · exact min_le_right _ _
    · exact le_trans (min_le_left _ _) (by linarith)
  · exact min_le_right _ _

theorem conversionAmountOf_le (inputs : UserInputs) (y : ℕ) (s : SimState)
    (h2 : inputs.conversionPercentage ≤ 100)
    (hs : 0 ≤ s.traditionalBalance) :
    conversionAmountOf inputs y s ≤ s.traditionalBalance := by
  cases hst : inputs.conversionStrategy with
  | oneTime =>
    simp only [conversionAmountOf, hst]
    split
    · exact hs
    · exact min_le_right _ _
  | annual =>
    simp only [conversionAmountOf, hst]
    refine le_trans (min_le_right _ _) ?_
    have h100 : inputs.conversionPercentage / 100 ≤ 1 := by
      rw [div_le_one (by norm_num : (0:ℚ) < 100)]
      exact h2
    calc s.traditionalBalance * (inputs.conversionPercentage / 100)
        ≤ s.traditionalBalance * 1 := mul_le_mul_of_nonneg_left h100 hs
      _ = s.traditionalBalance := mul_one _
  | bracketOptimization =>
    simp only [conversionAmountOf, hst]
    split
    · exact hs
    · exact getOptimalConversionAmount_le _ _ _ _ _ hs

theorem applyGrowth_fst_nonneg (inputs : UserInputs) (t r x : ℚ)
    (ht : 0 ≤ t) : 0 ≤ (applyGrowth inputs t r x).1 := by
  cases hE : inputs.expectedReturn with
  | none => simp only [applyGrowth, hE]; exact ht
  | some rr =>
    simp only [applyGrowth, hE]
    split
    · have hrr : (0:ℚ) ≤ 1 + rr := by linarith
      simpa using mul_nonneg ht hrr
    · exact ht

theorem step_safety (inputs : UserInputs)
    (h2 : inputs.conversionPercentage ≤ 100) (y : ℕ) (s : SimState)
    (hs : 0 ≤ s.traditionalBalance) :
    ((stepYear inputs y s).2).conversionAmount ≤ s.traditionalBalance
    ∧ ((stepYear inputs y s).2).rmdAmount
        ≤ s.traditionalBalance - ((stepYear inputs y s).2).conversionAmount
    ∧ 0 ≤ ((stepYear inputs y s).1).traditionalBalance := by
  have hC : ((stepYear inputs y s).2).conversionAmount
      = conversionAmountOf inputs y s := rfl
  have hR : ((stepYear inputs y s).2).rmdAmount
      = rmdAmountOf inputs y (s.traditionalBalance - conversionAmountOf inputs y s) := rfl
  have hca := conversionAmountOf_le inputs y s h2 hs
  have h1 : 0 ≤ s.traditionalBalance - conversionAmountOf inputs y s :=
    sub_nonneg.mpr hca
  refine ⟨by rw [hC]; exact hca, ?_, ?_⟩
  · rw [hR, hC]
    exact rmdAmountOf_le _ _ _ h1
  · have h2' : 0 ≤ (s.traditionalBalance - conversionAmountOf inputs y s)
        - rmdAmountOf inputs y (s.traditionalBalance - conversionAmountOf inputs y s) :=
      sub_nonneg.mpr (rmdAmountOf_le _ _ _ h1)
    exact applyGrowth_fst_nonneg inputs _ _ _ h2'

theorem simSteps_mem (inputs : UserInputs) (P : SimState → Prop)
    (hstep : ∀ y s, P s → P (stepYear inputs y s).1) :
    ∀ (ys : List ℕ) (s : SimState), P s → ∀ r ∈ simSteps inputs ys s,
      ∃ y s0, P s0 ∧ r = (stepYear inputs y s0).2 := by
  intro ys
  induction ys with
  | nil => intro s _ r hr; simp [simSteps] at hr
  | cons y ys ih =>
    intro s hs r hr
    simp only [simSteps, List.mem_cons] at hr
    rcases hr with h | h
    · exact ⟨y, s, hs, h⟩
    · exact ih (stepYear inputs y s).1 (hstep y s hs) r h

/- ------------------------------------------------------------------ -/
/- Claim theorems                                                     -/
/- ------------------------------------------------------------------ -/

/-- Claim C1 (code bug): `calcMarginalTax` does not implement the
progressive formula over the repository's bracket tables.  At income
100000 with `MFJ_BRACKETS` the source computes 11560 (after the first
bracket it compares the remaining income against, and subtracts, each
bracket's absolute cap as if the cap were the bracket's width), while the
reference progressive formula over the same caps gives 12615. -/
theorem calcMarginalTax_bracket_width_bug :
    calcMarginalTax 100000 MFJ_BRACKETS = 11560
    ∧ specReferenceProgressiveTax 100000 MFJ_BRACKETS = 12615
    ∧ ¬(calcMarginalTax 100000 MFJ_BRACKETS
        = specReferenceProgressiveTax 100000 MFJ_BRACKETS) := by
  norm_num [calcMarginalTax, calcMarginalTaxGo, MFJ_BRACKETS,
    specReferenceProgressiveTax, specRefTaxGo]

/-- Claim C2, counterexample: at income 95375 (the single filer's 22
percent cap), balance 1000000, target rate 0.22, the `taxEngine`
implementation of `getOptimalConversionAmount` does not return 0 — neither
with its TS default filing status `'mfj'` nor with `'single'`. -/
theorem optimalConversion_at_cap_cx :
    ¬(getOptimalConversionAmount 95375 1000000 SINGLE_BRACKETS (22/100)
        FilingStatus.mfj = 0)
    ∧ ¬(getOptimalConversionAmount 95375 1000000 SINGLE_BRACKETS (22/100)
        FilingStatus.single = 0) := by
  norm_num [getOptimalConversionAmount, calcMarginalTaxRate,
    getStandardDeduction, findBracketRate, findTargetBracket, capTruthy,
    SINGLE_BRACKETS]

/-- Claim C2, amended: at income 95375 the `taxEngine` implementation
returns the standard-deduction-sized room `cap + deduction - income`
(29200 under the TS-default `'mfj'` deduction, 14600 under `'single'`),
capped by the balance; only the deduction-less copy of the library
returns 0. -/
theorem optimalConversion_at_cap_amended :
    getOptimalConversionAmount 95375 1000000 SINGLE_BRACKETS (22/100)
        FilingStatus.mfj = 29200
    ∧ getOptimalConversionAmount 95375 1000000 SINGLE_BRACKETS (22/100)
        FilingStatus.single = 14600
    ∧ getOptimalConversionAmountV1 95375 1000000 SINGLE_BRACKETS (22/100) = 0 := by
  norm_num [getOptimalConversionAmount, getOptimalConversionAmountV1,
    calcMarginalTaxRate, calcMarginalTaxRateV1, getStandardDeduction,
    findBracketRate, findTargetBracket, capTruthy, SINGLE_BRACKETS]

/-- Claim C3, counterexample: with the first person already retired in
year 1 (age 70, retirement age 65) and an explicit first-year income of
50000, the simulated year is retired yet uses 50000, not the retirement
income 20000 — the year-1-to-10 branch wins over retirement. -/
theorem retirement_income_first_decade_cx :
    (runSimulation inpC3x).map (fun r => (r.isRetired, r.annualIncome))
      = [(true, 50000)]
    ∧ inpC3x.retirementIncome = 20000
    ∧ ¬((50000 : ℚ) = 20000) := by
  refine ⟨?_, rfl, by norm_num⟩
  norm_num [runSimulation, simSteps, initState, stepYear, incomeForYear,
    jsOr, inpC3x, List.range_succ]

/-- Claim C3, amended: the retirement-income field is used exactly for
retired years after year 10; every simulated year within years 1-10 takes
its income from the yearly-income array (falling back to the general
annual income), even when retired. -/
theorem retirement_income_selection (inputs : UserInputs) (y : ℕ)
    (s : SimState) (h10 : 10 < y)
    (hret : inputs.retirementAge ≤ inputs.age1 + (y : ℤ) - 1) :
    ((stepYear inputs y s).2).annualIncome = inputs.retirementIncome
    ∧ (∀ r ∈ runSimulation inputs,
        (10 < r.year → r.isRetired = true →
          r.annualIncome = inputs.retirementIncome)
        ∧ (r.year ≤ 10 →
            r.annualIncome
              = jsOr (inputs.yearlyIncomes[r.year - 1]?) inputs.annualIncome)) := by
  constructor
  · have hA : ((stepYear inputs y s).2).annualIncome = incomeForYear inputs y := rfl
    rw [hA]
    unfold incomeForYear
    rw [if_neg (by omega), if_pos hret]
  · intro r hr
    obtain ⟨y', s0, _, hrq⟩ :=
      simSteps_mem inputs (fun _ => True) (fun _ _ _ => trivial) _ _ trivial r hr
    subst hrq
    have hy : ((stepYear inputs y' s0).2).year = y' := rfl
    have hA : ((stepYear inputs y' s0).2).annualIncome = incomeForYear inputs y' := rfl
    have hRet : ((stepYear inputs y' s0).2).isRetired
        = decide (inputs.retirementAge ≤ inputs.age1 + (y' : ℤ) - 1) := rfl
    constructor
    · intro hy10 hret1
      rw [hy] at hy10
      rw [hRet] at hret1
      rw [hA]
      unfold incomeForYear
      rw [if_neg (by omega), if_pos (of_decide_eq_true hret1)]
    · intro hy10
      rw [hy] at hy10 ⊢
      rw [hA]
      unfold incomeForYear
      rw [if_pos hy10]

/-- Claim C3, witness: with the first person aged 100 (retired) in
simulated year 11, the income used is the retirement income. -/
theorem retirement_income_selection_w :
    ((stepYear inpC3w 11 (initState inpC3w)).2).annualIncome
      = inpC3w.retirementIncome :=
  (retirement_income_selection inpC3w 11 (initState inpC3w) (by decide)
    (by decide)).1

/-- Claim C5, counterexample: `calcMarginalTax` at income -1000 over
`MFJ_BRACKETS` returns -100, not 0 — negative income is not clamped. -/
theorem negative_income_tax_cx :
    calcMarginalTax (-1000) MFJ_BRACKETS = -100
    ∧ ¬((-100 : ℚ) = 0) := by
  norm_num [calcMarginalTax, calcMarginalTaxGo, MFJ_BRACKETS]

/-- Claim C5, amended: for negative income and either of the program's
bracket tables, `calcMarginalTax` taxes the (negative) income at the first
bracket's 10 percent rate, yielding a negative tax rather than 0. -/
theorem negative_income_tax_amended (income : ℚ) (h : income < 0) :
    calcMarginalTax income MFJ_BRACKETS = income * (1/10)
    ∧ calcMarginalTax income SINGLE_BRACKETS = income * (1/10)
    ∧ calcMarginalTax income MFJ_BRACKETS < 0 := by
  have h1 : income ≤ 22000 := by linarith
  have h2 : income ≤ 11000 := by linarith
  have e1 : calcMarginalTax income MFJ_BRACKETS = income * (1/10) := by
    simp only [calcMarginalTax, MFJ_BRACKETS, calcMarginalTaxGo]
    rw [if_pos h1]
    norm_num
  have e2 : calcMarginalTax income SINGLE_BRACKETS = income * (1/10) := by
    simp only [calcMarginalTax, SINGLE_BRACKETS, calcMarginalTaxGo]
    rw [if_pos h2]
    norm_num
  refine ⟨e1, e2, ?_⟩
  rw [e1]
  linarith

/-- Claim C5, amended, witness at income -1000. -/
theorem negative_income_tax_amended_w :
    calcMarginalTax (-1000) MFJ_BRACKETS = (-1000) * (1/10)
    ∧ calcMarginalTax (-1000) SINGLE_BRACKETS = (-1000) * (1/10)
    ∧ calcMarginalTax (-1000) MFJ_BRACKETS < 0 :=
  negative_income_tax_amended (-1000) (by decide)

/-- Claim C7: for every income, bracket table, state rate and filing
status, `calcTotalTax` is the federal `calcMarginalTax` on the
deduction-reduced income floored at zero, plus the state rate applied to
the gross income. -/
theorem totalTax_decomposition (income : ℚ) (brackets : List TaxBracket)
    (stateTaxRate : ℚ) (filingStatus : FilingStatus) :
    calcTotalTax income brackets stateTaxRate filingStatus
      = calcMarginalTax (max 0 (income - getStandardDeduction filingStatus))
          brackets
        + income * stateTaxRate := rfl

/-- Claim C9: the conversion step of `stepYear` (the `applyConversion`
block applied to the year's conversion amount and tax) is a pure balance
transfer: traditional decreases and Roth increases by the same amount,
their sum is unchanged, and the taxable balance changes only by the
conversion-tax debit, and only when a taxable account is tracked. -/
theorem conversion_balance_transfer (inputs : UserInputs) (y : ℕ)
    (s : SimState) :
    applyConversion s.traditionalBalance s.rothBalance s.taxableBalance
        ((stepYear inputs y s).2).conversionAmount
        ((stepYear inputs y s).2).conversionTax
        inputs.taxableBalance.isSome
      = (s.traditionalBalance - ((stepYear inputs y s).2).conversionAmount,
         s.rothBalance + ((stepYear inputs y s).2).conversionAmount,
         if inputs.taxableBalance.isSome = true then
           s.taxableBalance - ((stepYear inputs y s).2).conversionTax
         else s.taxableBalance)
    ∧ (s.traditionalBalance - ((stepYear inputs y s).2).conversionAmount)
        + (s.rothBalance + ((stepYear inputs y s).2).conversionAmount)
      = s.traditionalBalance + s.rothBalance :=
  ⟨rfl, by ring⟩

/-- Claim C10: `getRmdFactor` returns the uniform-lifetime-table divisor
for every age the table covers (72 to 120, all present) and 1.0 for every
age outside it; `getRmd` divides the balance by the factor; the
spot values of the contract hold, with `getRmd 1000000 72` within 0.01 of
36496.35. -/
theorem rmd_table_contract :
    (∀ a : ℤ, (getRmdFactor a = 1 ∧ tableLookup a UNIFORM_LIFETIME_TABLE = none)
      ∨ ((72 ≤ a ∧ a ≤ 120)
          ∧ tableLookup a UNIFORM_LIFETIME_TABLE = some (getRmdFactor a)))
    ∧ getRmdFactor 72 = 27.4
    ∧ getRmdFactor 121 = 1
    ∧ (∀ (balance : ℚ) (age : ℤ), getRmd balance age = balance / getRmdFactor age)
    ∧ ((List.range 49).all
        (fun k => (tableLookup ((72 : ℤ) + (k : ℤ)) UNIFORM_LIFETIME_TABLE).isSome))
      = true
    ∧ |getRmd 1000000 72 - 3649635/100| < 1/100 := by
  refine ⟨?_, ?_, ?_, fun _ _ => rfl, by decide, ?_⟩
  · intro a
    cases h : tableLookup a UNIFORM_LIFETIME_TABLE with
    | none => exact Or.inl ⟨by simp [getRmdFactor, jsOr, h], rfl⟩
    | some v =>
      have hm := mem_of_tableLookup h
      have hf := ult_facts _ hm
      have hv : (1 : ℚ) ≤ v := hf.2.2
      have hvne : ¬(v = 0) := by intro h0; rw [h0] at hv; norm_num at hv
      have hfac : getRmdFactor a = v := by
        simp [getRmdFactor, jsOr, h, hvne]
      exact Or.inr ⟨⟨hf.1, hf.2.1⟩, by rw [hfac]⟩
  · norm_num [getRmdFactor, jsOr, tableLookup, UNIFORM_LIFETIME_TABLE]
  · norm_num [getRmdFactor, jsOr, tableLookup, UNIFORM_LIFETIME_TABLE]
  · norm_num [getRmd, getRmdFactor, jsOr, tableLookup,
      UNIFORM_LIFETIME_TABLE, abs]

theorem foldl_const_mul (c x0 : ℝ) (n : ℕ) :
    (List.range n).foldl (fun t _ => t * c) x0 = x0 * c ^ n := by
  induction n with
  | zero => simp
  | succ n ih =>
    rw [List.range_succ, List.foldl_append, ih]
    simp [pow_succ, mul_assoc]

theorem map_const_replicate {α : Type} (l : List α) (v : MCResult) :
    l.map (fun _ => v) = List.replicate l.length v := by
  induction l with
  | nil => rfl
  | cons a l ih => simp [ih, List.replicate_succ]

/-- Claim C4, counterexample: with volatility 0, mean 0, one path and one
year, the simulated final traditional balance is 2, not
`1 * (1 + 0) ^ 1 = 1`; the sampled per-year return degenerates to
`exp(mean) = 1`, not to `mean = 0`. -/
theorem monteCarlo_zero_vol_cx :
    (runMonteCarloSimulation 1 1 1 0 0 1 (fun _ _ => (1/2, 1/2))).map
        MCResult.traditional = [2]
    ∧ ¬((2 : ℝ) = 1 * (1 + 0) ^ 1) := by
  constructor
  · simp [runMonteCarloSimulation, generateLogNormalReturn, List.range_succ]
    norm_num
  · norm_num

/-- Claim C4, amended: with volatility 0 the Monte-Carlo simulation is
deterministic — for every random stream all paths are identical — but the
per-year growth factor is `1 + exp(mean)` (the log-normal sampler
degenerates to `exp(mean)`, not to `mean`): every path's final balances
are `initial * (1 + exp(mean)) ^ years`. -/
theorem monteCarlo_zero_vol_amended (t0 r0 : ℝ) (years : ℕ) (mean : ℝ)
    (runs : ℕ) (rand : ℕ → ℕ → ℝ × ℝ) :
    runMonteCarloSimulation t0 r0 years mean 0 runs rand
      = List.replicate runs
          { traditional := t0 * (1 + Real.exp mean) ^ years,
            roth := r0 * (1 + Real.exp mean) ^ years,
            total := t0 * (1 + Real.exp mean) ^ years
              + r0 * (1 + Real.exp mean) ^ years } := by
  have hg : ∀ u1 u2 : ℝ, generateLogNormalReturn mean 0 u1 u2 = Real.exp mean := by
    intro u1 u2
    simp [generateLogNormalReturn]
  unfold runMonteCarloSimulation
  simp only [hg, foldl_const_mul]
  rw [map_const_replicate, List.length_range]

/-- Claim C6: `runSimulation` computes every marginal rate, conversion tax
and RMD tax through the TS-default `'single'` filing status (standard
deduction 14600) regardless of the input's filing status, while the
bracket-optimization conversion amount goes through
`getOptimalConversionAmount`'s TS-default `'mfj'`; only the bracket table
follows `inputs.filingStatus`.  The deductions differ (14600 vs 29200) and
produce different taxes. -/
theorem simulation_single_deduction (inputs : UserInputs) (y : ℕ)
    (s : SimState) :
    ((stepYear inputs y s).2).marginalTaxRate
      = calcMarginalTaxRate
          (((stepYear inputs y s).2).annualIncome
            + ((stepYear inputs y s).2).conversionAmount)
          (getBrackets inputs.filingStatus) FilingStatus.single
    ∧ ((stepYear inputs y s).2).conversionTax
      = calcTotalTax (((stepYear inputs y s).2).conversionAmount)
          (getBrackets inputs.filingStatus)
          (if inputs.enableStateTax = true then inputs.stateTaxRate else 0)
          FilingStatus.single
    ∧ ((stepYear inputs y s).2).rmdTax
      = (if 0 < ((stepYear inputs y s).2).rmdAmount then
          calcTotalTax (((stepYear inputs y s).2).rmdAmount)
            (getBrackets inputs.filingStatus)
            (if inputs.enableStateTax = true then inputs.stateTaxRate else 0)
            FilingStatus.single
        else 0)
    ∧ (inputs.conversionStrategy = ConversionStrategy.bracketOptimization →
        ((stepYear inputs y s).2).isRetired = false →
        ((stepYear inputs y s).2).conversionAmount
          = getOptimalConversionAmount
              (((stepYear inputs y s).2).annualIncome) s.traditionalBalance
              (getBrackets inputs.filingStatus) inputs.targetTaxBracket
              FilingStatus.mfj)
    ∧ getStandardDeduction FilingStatus.single = 14600
    ∧ getStandardDeduction FilingStatus.mfj = 29200
    ∧ ¬(calcTotalTax 50000 MFJ_BRACKETS 0 FilingStatus.single
        = calcTotalTax 50000 MFJ_BRACKETS 0 FilingStatus.mfj) := by
  refine ⟨rfl, rfl, rfl, ?_, rfl, rfl, ?_⟩
  · intro hstrat hret
    have hA : ((stepYear inputs y s).2).annualIncome = incomeForYear inputs y := rfl
    have hC : ((stepYear inputs y s).2).conversionAmount
        = conversionAmountOf inputs y s := rfl
    have hR : ((stepYear inputs y s).2).isRetired
        = decide (inputs.retirementAge ≤ inputs.age1 + (y : ℤ) - 1) := rfl
    rw [hR] at hret
    have hnot : ¬(inputs.retirementAge ≤ inputs.age1 + (y : ℤ) - 1) :=
      of_decide_eq_false hret
    rw [hA, hC]
    simp only [conversionAmountOf, hstrat]
    rw [if_neg hnot]
  · norm_num [calcTotalTax, calcMarginalTax, calcMarginalTaxGo,
      getStandardDeduction, MFJ_BRACKETS]

/-- Claim C6, witness: a concrete non-retired bracket-optimization year
whose conversion amount is computed with the `'mfj'`-default
`getOptimalConversionAmount`. -/
theorem simulation_single_deduction_w :
    ((stepYear inpC6 1 (initState inpC6)).2).conversionAmount
      = getOptimalConversionAmount
          (((stepYear inpC6 1 (initState inpC6)).2).annualIncome)
          (initState inpC6).traditionalBalance (getBrackets inpC6.filingStatus)
          inpC6.targetTaxBracket FilingStatus.mfj :=
  (simulation_single_deduction inpC6 1 (initState inpC6)).2.2.2.1 rfl (by decide)

/-- Claim C8: with a nonnegative starting traditional balance and a
conversion percentage of at most 100, every simulated year's conversion
amount is at most the traditional balance held before the conversion, the
RMD amount is at most the balance held after the conversion, and the
traditional balance of every emitted year record is nonnegative. -/
theorem withdrawal_floor_safety (inputs : UserInputs)
    (h1 : 0 ≤ inputs.traditionalBalance)
    (h2 : inputs.conversionPercentage ≤ 100) :
    (∀ (y : ℕ) (s : SimState), 0 ≤ s.traditionalBalance →
      ((stepYear inputs y s).2).conversionAmount ≤ s.traditionalBalance
      ∧ ((stepYear inputs y s).2).rmdAmount
          ≤ s.traditionalBalance - ((stepYear inputs y s).2).conversionAmount
      ∧ 0 ≤ ((stepYear inputs y s).1).traditionalBalance)
    ∧ (∀ r ∈ runSimulation inputs, 0 ≤ r.traditionalBalance) := by
  constructor
  · exact fun y s hs => step_safety inputs h2 y s hs
  · intro r hr
    have hP : (0 : ℚ) ≤ (initState inputs).traditionalBalance := h1
    obtain ⟨y, s0, hs0, hrq⟩ :=
      simSteps_mem inputs (fun st => 0 ≤ st.traditionalBalance)
        (fun y s hs => (step_safety inputs h2 y s hs).2.2) _ _ hP r hr
    rw [hrq]
    have hTB : ((stepYear inputs y s0).2).traditionalBalance
        = ((stepYear inputs y s0).1).traditionalBalance := rfl
    rw [hTB]
    exact (step_safety inputs h2 y s0 hs0).2.2

/-- Claim C8, witness: a concrete input with balance 100000 and a
50 percent conversion cap, applied at year 1. -/
theorem withdrawal_floor_safety_w :
    0 ≤ inpC8.traditionalBalance
    ∧ inpC8.conversionPercentage ≤ 100
    ∧ ((stepYear inpC8 1 (initState inpC8)).2).conversionAmount
        ≤ (initState inpC8).traditionalBalance :=
  ⟨by decide, by decide,
    ((withdrawal_floor_safety inpC8 (by decide) (by decide)).1 1
      (initState inpC8) (by decide)).1⟩
